import Mathlib

/-
  Verification of the challenge-response `su` implementation
  (src/su/jni/su.cc, src/su/jni/hexadecimal.cc, src/su/jni/hexadecimal.hh).

  Bytes and ASCII characters are modelled as `Nat` values below 256.
  The C `char` indexing expression `c & 0x1f` depends only on the low five
  bits of the byte, so modelling characters by their unsigned byte value
  is faithful regardless of `char` signedness.
-/

namespace Su

/-- The 32-entry decode table of hexadecimal.cc: index is `hex-digit & 0x1f`,
value is the numeric nibble; `bad = 0`. -/
def decoded_hex_table : List Nat :=
  [0, 0xA, 0xB, 0xC, 0xD, 0xE, 0xF, 0,
   0, 0, 0, 0, 0, 0, 0, 0,
   0x0, 0x1, 0x2, 0x3, 0x4, 0x5, 0x6, 0x7,
   0x8, 0x9, 0, 0, 0, 0, 0, 0]

/-- The 16-entry encode table of hexadecimal.cc: index is `nibble & 0x0f`,
value is the ASCII code of the lowercase hex digit. -/
def encoded_hex_table : List Nat :=
  [48, 49, 50, 51, 52, 53, 54, 55,
   56, 57, 97, 98, 99, 100, 101, 102]

/-- `decoded_hex_digit` of hexadecimal.cc: `decoded_hex_table[c & 0x1f]`. -/
def decoded_hex_digit (c : Nat) : Nat :=
  decoded_hex_table.getD (c &&& 0x1f) 0

/-- `encoded_hex_char` of hexadecimal.cc: `encoded_hex_table[d & 0x0f]`. -/
def encoded_hex_char (d : Nat) : Nat :=
  encoded_hex_table.getD (d &&& 0x0f) 0

/-- `hexpcpy_lower` of hexadecimal.cc: each input byte `c` yields the two
output characters `encoded_hex_char (c >> 4)` and `encoded_hex_char c`. -/
def hexpcpy_lower : List Nat → List Nat
  | [] => []
  | c :: rest =>
      encoded_hex_char (c >>> 4) :: encoded_hex_char c :: hexpcpy_lower rest

/-- `unhexpcpy` of hexadecimal.cc: each consecutive pair of input characters
yields the output byte `(decoded_hex_digit c1 << 4) | decoded_hex_digit c2`.
The C function takes the output byte count `n` and consumes exactly `2*n`
input characters; here the input list carries exactly the consumed
characters, decoded pairwise. -/
def unhexpcpy : List Nat → List Nat
  | c1 :: c2 :: rest =>
      ((decoded_hex_digit c1 <<< 4) ||| decoded_hex_digit c2) :: unhexpcpy rest
  | _ => []

/-- The ASCII codes of the hexadecimal alphabet: digits `0`-`9`,
lowercase `a`-`f`, uppercase `A`-`F` (spec vocabulary, used to state the
claims about non-hex and case-insensitive decoding). -/
def hexDigitChars : List Nat :=
  [48, 49, 50, 51, 52, 53, 54, 55, 56, 57,
   97, 98, 99, 100, 101, 102,
   65, 66, 67, 68, 69, 70]

/-- A byte is a hexadecimal character (spec vocabulary). -/
def isHexDigitChar (c : Nat) : Prop := c ∈ hexDigitChars

instance (c : Nat) : Decidable (isHexDigitChar c) := by
  unfold isHexDigitChar; infer_instance

/-- ASCII lowercasing of a byte (spec vocabulary for claim C7). -/
def asciiToLower (c : Nat) : Nat :=
  if 65 ≤ c ∧ c ≤ 90 then c + 32 else c

/-- ASCII uppercasing of a byte (spec vocabulary for claim C7). -/
def asciiToUpper (c : Nat) : Nat :=
  if 97 ≤ c ∧ c ≤ 122 then c - 32 else c

/-
  Model of su.cc.  The process interacts with its environment through
  syscalls; an `Env` value fixes the outcome of every such interaction
  (argument count, identities, clock, the two file reads, the stdin read,
  the Ed25519 primitive, and the identity-change/exec results), and
  `runMain` replays main() against it, returning the process outcome
  together with the trace of observable events in program order.
-/

/-- Result of opening and reading a byte-stream source (the random source
or the public-key file): the open can fail, the read can fail, or the read
returns some bytes (at most the requested count). -/
inductive ReadSource where
  | openFail
  | readFail
  | bytes (bs : List Nat)
deriving DecidableEq

/-- Result of the final `execlp` call: success never returns (the process
image is replaced); failure distinguishes `ENOENT` from other errnos. -/
inductive ExecResult where
  | success
  | failNoEnt
  | failOther
deriving DecidableEq

/-- The environment of one process invocation: every datum main() obtains
from the outside world. -/
structure Env where
  argc : Nat
  euid : Nat
  uid : Nat
  time : Nat
  randomSrc : ReadSource
  keySrc : ReadSource
  stdinRead : Option (List Nat)
  verify_ok : List Nat → List Nat → List Nat → Bool
  setgid0_ok : Bool
  setuid0_ok : Bool
  execResult : ExecResult

/-- The fixed stdout texts of su.cc. -/
inductive Msg where
  | standby
  | newline
  | challengeLabel
  | accessGranted
  | accessDenied
deriving DecidableEq

/-- Observable events of one run, in program order. -/
inductive Ev where
  | outMsg (m : Msg)
  | sleepSec (n : Nat)
  | outChallenge (bs : List Nat)
  | openRandom
  | openKey
  | readStdin
  | decodeResponse (sig : List Nat)
  | verifyCall (msg key sig : List Nat)
  | setgidCall (g : Nat)
  | setuidCall (u : Nat)
  | execShell
deriving DecidableEq

/-- Outcome of a run: `exit(status)`, or the process image replaced by the
shell (success of `execlp`, which never returns). -/
inductive MainOutcome where
  | exited (status : Nat)
  | execed
deriving DecidableEq

/-- `n_random_bytes` of su.cc. -/
def n_random_bytes : Nat := 28

/-- The four bytes of a `uint32_t` store, little-endian (the byte order of
the Android targets this program is built for; su.cc stores the timestamp
in native order and never parses it back). -/
def u32le (t : Nat) : List Nat :=
  [t % 256, t / 2 ^ 8 % 256, t / 2 ^ 16 % 256, t / 2 ^ 24 % 256]

/-- Read a 32-bit value back from four little-endian bytes
(spec vocabulary: states what the first challenge bytes encode). -/
def fromLE4 (bs : List Nat) : Nat :=
  bs.getD 0 0 + 2 ^ 8 * bs.getD 1 0 + 2 ^ 16 * bs.getD 2 0 +
    2 ^ 24 * bs.getD 3 0

/-- `make_challenge` of su.cc: store the 32-bit truncated time, then read
`n_random_bytes` from the random source; `none` models the fatal
ERROR/FAIL exits (open failure, read failure, short read). -/
def make_challenge (t : Nat) (src : ReadSource) : Option (List Nat) :=
  match src with
  | ReadSource.openFail => none
  | ReadSource.readFail => none
  | ReadSource.bytes bs =>
      if bs.length = n_random_bytes then some (u32le t ++ bs) else none

/-- The signed payload built in `authenticate`: the 64 lowercase hex
characters of the challenge followed by the line feed stored at
`challenge_hex[64]`. -/
def challengeMessage (challenge : List Nat) : List Nat :=
  hexpcpy_lower challenge ++ [10]

/-- The key-loading prefix of `response_answers_challenge`: read 32 bytes
from the public-key file; `none` models the fatal ERROR/FAIL exits. -/
def load_public_key (src : ReadSource) : Option (List Nat) :=
  match src with
  | ReadSource.openFail => none
  | ReadSource.readFail => none
  | ReadSource.bytes bs => if bs.length = 32 then some bs else none

/-- Status of `authenticate`: returned true, returned false, or exited the
process via ERROR/FAIL. -/
inductive AuthStatus where
  | fatal
  | denied
  | granted
deriving DecidableEq

/-- `authenticate` of su.cc (together with the body of
`response_answers_challenge`, which it calls): print the standby notice,
sleep, generate the challenge, print the challenge line, read the response
in one read, and only for a 129-byte response ending in a line feed decode
the first 128 characters into a 64-byte signature, load the public key and
call the verification primitive on the exact challenge message. -/
def runAuthenticate (env : Env) : AuthStatus × List Ev :=
  let pre := [Ev.outMsg Msg.standby, Ev.sleepSec 1, Ev.outMsg Msg.newline,
              Ev.openRandom]
  match make_challenge env.time env.randomSrc with
  | none => (AuthStatus.fatal, pre)
  | some challenge =>
    let msg := challengeMessage challenge
    let evs1 := pre ++ [Ev.outMsg Msg.challengeLabel, Ev.outChallenge msg,
                        Ev.readStdin]
    match env.stdinRead with
    | none => (AuthStatus.fatal, evs1)
    | some response =>
      if response.length = 129 ∧ response.getD 128 0 = 10 then
        let sig := unhexpcpy (response.take 128)
        let evs2 := evs1 ++ [Ev.decodeResponse sig]
        match load_public_key env.keySrc with
        | none => (AuthStatus.fatal, evs2 ++ [Ev.openKey])
        | some key =>
          let evs3 := evs2 ++ [Ev.openKey, Ev.verifyCall msg key sig]
          if env.verify_ok msg key sig then
            (AuthStatus.granted, evs3 ++ [Ev.outMsg Msg.accessGranted])
          else
            (AuthStatus.denied, evs3 ++ [Ev.outMsg Msg.accessDenied])
      else
        (AuthStatus.denied, evs1 ++ [Ev.outMsg Msg.accessDenied])

/-- The tail of main() after authentication: `setgid(0)`, `setuid(0)`,
`execlp` of the shell; identity-change failure exits with the initial
status 125, exec failure sets the status to `(errno == ENOENT) + 126`. -/
def runPrivTransition (env : Env) (evs : List Ev) : MainOutcome × List Ev :=
  if env.setgid0_ok then
    if env.setuid0_ok then
      let evs3 := evs ++ [Ev.setgidCall 0, Ev.setuidCall 0, Ev.execShell]
      match env.execResult with
      | ExecResult.success => (MainOutcome.execed, evs3)
      | ExecResult.failNoEnt => (MainOutcome.exited 127, evs3)
      | ExecResult.failOther => (MainOutcome.exited 126, evs3)
    else (MainOutcome.exited 125, evs ++ [Ev.setgidCall 0, Ev.setuidCall 0])
  else (MainOutcome.exited 125, evs ++ [Ev.setgidCall 0])

/-- `main` of su.cc: reject any argument, require effective uid 0, run
`authenticate` only for a non-root real uid (denial exits with 1, a fatal
error inside with 125), then change identity and exec the shell. -/
def runMain (env : Env) : MainOutcome × List Ev :=
  if env.argc > 1 then (MainOutcome.exited 125, [])
  else if env.euid ≠ 0 then (MainOutcome.exited 125, [])
  else if env.uid ≠ 0 then
    let r := runAuthenticate env
    match r.1 with
    | AuthStatus.fatal => (MainOutcome.exited 125, r.2)
    | AuthStatus.denied => (MainOutcome.exited 1, r.2)
    | AuthStatus.granted => runPrivTransition env r.2
  else runPrivTransition env []

/-- The status `authenticate` ends in, for a given environment. -/
def authStatus (env : Env) : AuthStatus := (runAuthenticate env).1

/-- The run gets past the argument and effective-uid checks. -/
def preOk (env : Env) : Prop := ¬ env.argc > 1 ∧ env.euid = 0

/-- The run reaches the privilege transition (root caller, or
authentication granted). -/
def privReached (env : Env) : Prop :=
  preOk env ∧ (env.uid = 0 ∨ authStatus env = AuthStatus.granted)

/-- The run reaches the `execlp` call. -/
def execReached (env : Env) : Prop :=
  privReached env ∧ env.setgid0_ok = true ∧ env.setuid0_ok = true

instance (env : Env) : Decidable (preOk env) := by
  unfold preOk; infer_instance

instance (env : Env) : Decidable (privReached env) := by
  unfold privReached; infer_instance

instance (env : Env) : Decidable (execReached env) := by
  unfold execReached; infer_instance

/-- A concrete environment whose session is granted: non-root caller,
28 random bytes, 32 key bytes, a well-framed 129-byte response, an
accepting verification primitive. -/
def goodEnv : Env :=
  ⟨1, 0, 1000, 0,
   ReadSource.bytes (List.replicate 28 0),
   ReadSource.bytes (List.replicate 32 0),
   some (List.replicate 128 48 ++ [10]),
   fun _ _ _ => true, true, true, ExecResult.success⟩

/-- A concrete environment whose response is empty (malformed framing). -/
def emptyRespEnv : Env :=
  ⟨1, 0, 1000, 0,
   ReadSource.bytes (List.replicate 28 0),
   ReadSource.bytes (List.replicate 32 0),
   some [],
   fun _ _ _ => true, true, true, ExecResult.success⟩

/-- A concrete environment whose random source yields no bytes. -/
def shortRandEnv : Env :=
  ⟨1, 0, 1000, 0,
   ReadSource.bytes [],
   ReadSource.bytes (List.replicate 32 0),
   some (List.replicate 128 48 ++ [10]),
   fun _ _ _ => true, true, true, ExecResult.success⟩

/-- A concrete environment invoked with one command-line argument. -/
def argEnv : Env :=
  ⟨2, 0, 1000, 0,
   ReadSource.bytes (List.replicate 28 0),
   ReadSource.bytes (List.replicate 32 0),
   some (List.replicate 128 48 ++ [10]),
   fun _ _ _ => true, true, true, ExecResult.success⟩

/-- A concrete environment whose caller is already root (euid and uid 0). -/
def rootEnv : Env :=
  ⟨1, 0, 0, 0,
   ReadSource.bytes (List.replicate 28 0),
   ReadSource.bytes (List.replicate 32 0),
   some (List.replicate 128 48 ++ [10]),
   fun _ _ _ => true, true, true, ExecResult.success⟩

end Su

namespace Su

/-- Decoding the two lowercase hex characters of one byte gives the byte
back: the per-byte core of the round-trip law. -/
theorem byte_roundtrip :
    ∀ x : Fin 256,
      (decoded_hex_digit (encoded_hex_char (x.val >>> 4)) <<< 4) |||
        decoded_hex_digit (encoded_hex_char x.val) = x.val := by
  set_option maxRecDepth 8192 in decide

/-- Claim C4: for every byte sequence b, decoding the lowercase hex encoding
of b yields b again: `unhexpcpy (hexpcpy_lower b) = b`. -/
theorem hex_roundtrip (b : List Nat) (hb : ∀ x ∈ b, x < 256) :
    unhexpcpy (hexpcpy_lower b) = b := by
  induction b with
  | nil => rfl
  | cons x rest ih =>
      have hx : x < 256 := hb x (List.mem_cons_self x rest)
      have hr := ih (fun y hy => hb y (List.mem_cons_of_mem x hy))
      simp only [hexpcpy_lower, unhexpcpy, hr]
      rw [byte_roundtrip ⟨x, hx⟩]

/-- Witness for C4 at the concrete byte sequence [0, 171, 255]. -/
theorem hex_roundtrip_witness :
    unhexpcpy (hexpcpy_lower [0, 171, 255]) = [0, 171, 255] :=
  hex_roundtrip [0, 171, 255] (by decide)

/-- Counterexample to claim C3 as stated: the character `!` (ASCII 33) is
outside the hexadecimal alphabet, yet the decoder maps it to nibble 10
(its low five bits collide with those of `a`), not to 0; decoding the
two-character input `!!` yields the byte 0xAA. -/
theorem nonhex_nibble_counterexample :
    ¬ isHexDigitChar 33 ∧ decoded_hex_digit 33 = 10 ∧
      decoded_hex_digit 33 ≠ 0 ∧ unhexpcpy [33, 33] = [170] := by
  decide

/-- Claim C3 (amended): the decoder is total — every input character maps to
a nibble below 16, never an error; a character outside the hexadecimal
alphabet maps to nibble 0 when its low five bits differ from those of every
hexadecimal character, and otherwise decodes to the same nibble as the
colliding hexadecimal character; in particular decode("zz") yields the
single byte 0x00. -/
theorem nonhex_decode_amended :
    (∀ c : Fin 256, decoded_hex_digit c.val < 16) ∧
    (∀ c : Fin 256, ¬ isHexDigitChar c.val →
      ((∀ h ∈ hexDigitChars, h &&& 0x1f ≠ c.val &&& 0x1f) →
        decoded_hex_digit c.val = 0) ∧
      (∀ h ∈ hexDigitChars, h &&& 0x1f = c.val &&& 0x1f →
        decoded_hex_digit c.val = decoded_hex_digit h)) ∧
    unhexpcpy [122, 122] = [0] := by
  set_option maxRecDepth 8192 in decide

/-- Witness for the amended C3 at the concrete non-hex character `z`
(ASCII 122), whose low five bits collide with no hexadecimal character. -/
theorem nonhex_decode_amended_witness :
    decoded_hex_digit 122 = 0 :=
  (nonhex_decode_amended.2.1 ⟨122, by decide⟩ (by decide)).1 (by decide)

/-- Claim C7: the hex decoder is case-insensitive: every hexadecimal
character decodes to the same nibble as its lowercase and its uppercase
form, and decode("3f") = decode("3F") = [0x3f]. -/
theorem decode_case_insensitive :
    (∀ c : Fin 256, isHexDigitChar c.val →
      decoded_hex_digit (asciiToLower c.val) = decoded_hex_digit c.val ∧
      decoded_hex_digit (asciiToUpper c.val) = decoded_hex_digit c.val) ∧
    unhexpcpy [51, 102] = unhexpcpy [51, 70] ∧
    unhexpcpy [51, 70] = [0x3f] := by
  set_option maxRecDepth 8192 in decide

/-- Witness for C7 at the concrete hexadecimal character `f` (ASCII 102). -/
theorem decode_case_insensitive_witness :
    decoded_hex_digit (asciiToUpper 102) = decoded_hex_digit 102 :=
  (decode_case_insensitive.1 ⟨102, by decide⟩ (by decide)).2

/-- The four bytes of a 32-bit store encode the stored value truncated to
32 bits. -/
theorem fromLE4_u32le (t : Nat) : fromLE4 (u32le t) = t % 2 ^ 32 := by
  simp [fromLE4, u32le]
  omega

/-- A successfully generated challenge is 32 bytes long. -/
theorem make_challenge_length (t : Nat) (src : ReadSource) (c : List Nat)
    (h : make_challenge t src = some c) : c.length = 32 := by
  cases src with
  | openFail => simp [make_challenge] at h
  | readFail => simp [make_challenge] at h
  | bytes bs =>
      simp [make_challenge, n_random_bytes] at h
      rcases h with ⟨hlen, rfl⟩
      simp [u32le, hlen]

/-- Claim C5: every generated challenge is exactly 32 bytes; its first four
bytes encode the wall-clock time at generation truncated to 32 bits, and
its remaining 28 bytes are the bytes read from the random source. -/
theorem challenge_shape (t : Nat) (bs c : List Nat)
    (h : make_challenge t (ReadSource.bytes bs) = some c) :
    c.length = 32 ∧ fromLE4 (c.take 4) = t % 2 ^ 32 ∧
      c.drop 4 = bs ∧ bs.length = 28 := by
  have hlen := make_challenge_length t (ReadSource.bytes bs) c h
  simp [make_challenge, n_random_bytes] at h
  rcases h with ⟨hbs, rfl⟩
  have h4 : (u32le t).length = 4 := by simp [u32le]
  refine ⟨hlen, ?_, ?_, hbs⟩
  · rw [show (4 : Nat) = (u32le t).length from h4.symm, List.take_left,
      fromLE4_u32le]
  · rw [show (4 : Nat) = (u32le t).length from h4.symm, List.drop_left]

/-- Witness for C5 at time 0 and a concrete 28-byte random block. -/
theorem challenge_shape_witness :
    (u32le 0 ++ List.replicate 28 7).length = 32 ∧
      fromLE4 ((u32le 0 ++ List.replicate 28 7).take 4) = 0 % 2 ^ 32 ∧
      (u32le 0 ++ List.replicate 28 7).drop 4 = List.replicate 28 7 ∧
      (List.replicate 28 7 : List Nat).length = 28 :=
  challenge_shape 0 (List.replicate 28 7) (u32le 0 ++ List.replicate 28 7)
    (by decide)

/-- On the authentication path (argument and identity checks passed,
non-root caller), `main` maps the status of `authenticate` to its outcome:
fatal exits 125, denial exits 1, grant proceeds to the privilege
transition. -/
theorem runMain_auth (env : Env) (h1 : ¬ env.argc > 1) (h2 : env.euid = 0)
    (h3 : env.uid ≠ 0) :
    runMain env =
      match (runAuthenticate env).1 with
      | AuthStatus.fatal => (MainOutcome.exited 125, (runAuthenticate env).2)
      | AuthStatus.denied => (MainOutcome.exited 1, (runAuthenticate env).2)
      | AuthStatus.granted => runPrivTransition env (runAuthenticate env).2 := by
  simp [runMain, h1, h2, h3]

/-- For a caller that is already root, `main` goes straight to the
privilege transition with an empty event trace. -/
theorem runMain_root (env : Env) (h1 : ¬ env.argc > 1) (h2 : env.euid = 0)
    (h3 : env.uid = 0) : runMain env = runPrivTransition env [] := by
  simp [runMain, h1, h2, h3]

/-- The privilege transition only appends identity-change and exec events
to the trace it is given. -/
theorem privTransition_snd (env : Env) (evs : List Ev) :
    ∃ tail, (runPrivTransition env evs).2 = evs ++ tail ∧
      ∀ e ∈ tail,
        e = Ev.setgidCall 0 ∨ e = Ev.setuidCall 0 ∨ e = Ev.execShell := by
  cases hg : env.setgid0_ok <;> cases hu : env.setuid0_ok <;>
    cases he : env.execResult <;>
      simp [runPrivTransition, hg, hu, he]

/-- Claim C9: if any command-line argument is supplied, the program
terminates fatally (exit status 125) with an empty event trace: no file is
opened and no output is produced. -/
theorem args_fatal (env : Env) (h : env.argc > 1) :
    runMain env = (MainOutcome.exited 125, []) := by
  simp [runMain, h]

/-- Witness for C9 at a concrete environment invoked with one argument. -/
theorem args_fatal_witness :
    runMain argEnv = (MainOutcome.exited 125, []) :=
  args_fatal argEnv (by decide)

/-- Claim C10: for a caller whose effective and real uid are both 0 (and no
arguments), the run performs no authentication — its trace holds only
identity-change and exec events, starting with `setgid(0)` — and when the
identity changes and the exec succeed, the process image is replaced by
the shell after exactly `setgid(0)`, `setuid(0)`, `execlp`. -/
theorem root_bypass (env : Env) (h1 : ¬ env.argc > 1) (h2 : env.euid = 0)
    (h3 : env.uid = 0) :
    (∀ e ∈ (runMain env).2,
       e = Ev.setgidCall 0 ∨ e = Ev.setuidCall 0 ∨ e = Ev.execShell) ∧
    (runMain env).2.head? = some (Ev.setgidCall 0) ∧
    (env.setgid0_ok = true → env.setuid0_ok = true →
      env.execResult = ExecResult.success →
      runMain env = (MainOutcome.execed,
        [Ev.setgidCall 0, Ev.setuidCall 0, Ev.execShell])) := by
  rw [runMain_root env h1 h2 h3]
  cases hg : env.setgid0_ok <;> cases hu : env.setuid0_ok <;>
    cases he : env.execResult <;>
      simp [runPrivTransition, hg, hu, he]

/-- Claim C8: challenge generation is fatal, not a denial, whenever the
random source cannot be opened, cannot be read, or yields fewer than 28
bytes: the run exits with status 125 (never 1), opens the random source
exactly once (no retry), never reads stdin, and prints no denial notice. -/
theorem random_failure_fatal (env : Env) (h1 : ¬ env.argc > 1)
    (h2 : env.euid = 0) (h3 : env.uid ≠ 0)
    (h4 : env.randomSrc = ReadSource.openFail ∨
          env.randomSrc = ReadSource.readFail ∨
          ∃ bs, env.randomSrc = ReadSource.bytes bs ∧ bs.length < 28) :
    (runMain env).1 = MainOutcome.exited 125 ∧
    (runMain env).2.count Ev.openRandom = 1 ∧
    Ev.outMsg Msg.accessDenied ∉ (runMain env).2 ∧
    Ev.readStdin ∉ (runMain env).2 ∧
    (runMain env).1 ≠ MainOutcome.exited 1 := by
  have hmc : make_challenge env.time env.randomSrc = none := by
    rcases h4 with h | h | ⟨bs, h, hlen⟩ <;>
      simp [make_challenge, h, n_random_bytes]
    omega
  rw [runMain_auth env h1 h2 h3]
  simp [runAuthenticate, hmc]

/-- Witness for C8 at a concrete environment whose random source yields no
bytes. -/
theorem random_failure_fatal_witness :
    (runMain shortRandEnv).1 = MainOutcome.exited 125 ∧
    (runMain shortRandEnv).2.count Ev.openRandom = 1 ∧
    Ev.outMsg Msg.accessDenied ∉ (runMain shortRandEnv).2 ∧
    Ev.readStdin ∉ (runMain shortRandEnv).2 ∧
    (runMain shortRandEnv).1 ≠ MainOutcome.exited 1 :=
  random_failure_fatal shortRandEnv (by decide) (by decide) (by decide)
    (Or.inr (Or.inr ⟨[], by decide, by decide⟩))

/-- Claim C2: a response whose byte count is not exactly 129, or whose byte
at offset 128 is not a line feed, ends the session in DENIED (exit status
1): the response is never hex-decoded, the public key is never loaded, and
the verification primitive is never called. -/
theorem bad_framing_denied (env : Env) (rb response : List Nat)
    (h1 : ¬ env.argc > 1) (h2 : env.euid = 0) (h3 : env.uid ≠ 0)
    (h4 : env.randomSrc = ReadSource.bytes rb) (h5 : rb.length = 28)
    (h6 : env.stdinRead = some response)
    (h7 : response.length ≠ 129 ∨ response.getD 128 0 ≠ 10) :
    authStatus env = AuthStatus.denied ∧
    (runMain env).1 = MainOutcome.exited 1 ∧
    Ev.outMsg Msg.accessDenied ∈ (runMain env).2 ∧
    (∀ s, Ev.decodeResponse s ∉ (runMain env).2) ∧
    Ev.openKey ∉ (runMain env).2 ∧
    (∀ m k s, Ev.verifyCall m k s ∉ (runMain env).2) := by
  have hcond : ¬ (response.length = 129 ∧ response.getD 128 0 = 10) := by
    tauto
  have hmc : make_challenge env.time env.randomSrc =
      some (u32le env.time ++ rb) := by
    simp [make_challenge, h4, h5, n_random_bytes]
  have hauth : runAuthenticate env =
      (AuthStatus.denied,
       [Ev.outMsg Msg.standby, Ev.sleepSec 1, Ev.outMsg Msg.newline,
        Ev.openRandom, Ev.outMsg Msg.challengeLabel,
        Ev.outChallenge (challengeMessage (u32le env.time ++ rb)),
        Ev.readStdin, Ev.outMsg Msg.accessDenied]) := by
    unfold runAuthenticate
    rw [hmc, h6]
    exact if_neg hcond
  rw [runMain_auth env h1 h2 h3]
  simp [authStatus, hauth]

/-- Witness for C2 at a concrete environment whose response is empty. -/
theorem bad_framing_denied_witness :
    authStatus emptyRespEnv = AuthStatus.denied ∧
    (runMain emptyRespEnv).1 = MainOutcome.exited 1 ∧
    Ev.outMsg Msg.accessDenied ∈ (runMain emptyRespEnv).2 ∧
    (∀ s, Ev.decodeResponse s ∉ (runMain emptyRespEnv).2) ∧
    Ev.openKey ∉ (runMain emptyRespEnv).2 ∧
    (∀ m k s, Ev.verifyCall m k s ∉ (runMain emptyRespEnv).2) :=
  bad_framing_denied emptyRespEnv (List.replicate 28 0) []
    (by decide) (by decide) (by decide) (by decide) (by decide) (by decide)
    (Or.inl (by decide))

/-- The hex encoding of a byte sequence is twice as long. -/
theorem hexpcpy_lower_length (b : List Nat) :
    (hexpcpy_lower b).length = 2 * b.length := by
  induction b with
  | nil => rfl
  | cons x r ih =>
      simp [hexpcpy_lower, ih]
      omega

/-- When the argument check passes but the effective uid is nonzero, `main`
exits 125 with an empty trace. -/
theorem runMain_not_setuid (env : Env) (h1 : ¬ env.argc > 1)
    (h2 : env.euid ≠ 0) : runMain env = (MainOutcome.exited 125, []) := by
  simp [runMain, h1, h2]

/-- Evaluation of `authenticate` when challenge generation fails. -/
theorem runAuth_none (env : Env)
    (hmc : make_challenge env.time env.randomSrc = none) :
    runAuthenticate env =
      (AuthStatus.fatal,
       [Ev.outMsg Msg.standby, Ev.sleepSec 1, Ev.outMsg Msg.newline,
        Ev.openRandom]) := by
  unfold runAuthenticate
  rw [hmc]

/-- Evaluation of `authenticate` when the stdin read fails. -/
theorem runAuth_stdin_none (env : Env) (c : List Nat)
    (hmc : make_challenge env.time env.randomSrc = some c)
    (hs : env.stdinRead = none) :
    runAuthenticate env =
      (AuthStatus.fatal,
       [Ev.outMsg Msg.standby, Ev.sleepSec 1, Ev.outMsg Msg.newline,
        Ev.openRandom, Ev.outMsg Msg.challengeLabel,
        Ev.outChallenge (challengeMessage c), Ev.readStdin]) := by
  unfold runAuthenticate
  rw [hmc, hs]
  rfl

/-- Evaluation of `authenticate` on a malformed response frame. -/
theorem runAuth_badframe (env : Env) (c response : List Nat)
    (hmc : make_challenge env.time env.randomSrc = some c)
    (hs : env.stdinRead = some response)
    (hcond : ¬ (response.length = 129 ∧ response.getD 128 0 = 10)) :
    runAuthenticate env =
      (AuthStatus.denied,
       [Ev.outMsg Msg.standby, Ev.sleepSec 1, Ev.outMsg Msg.newline,
        Ev.openRandom, Ev.outMsg Msg.challengeLabel,
        Ev.outChallenge (challengeMessage c), Ev.readStdin,
        Ev.outMsg Msg.accessDenied]) := by
  unfold runAuthenticate
  rw [hmc, hs]
  exact if_neg hcond

/-- Evaluation of `authenticate` when key loading fails after a well-framed
response. -/
theorem runAuth_keyfail (env : Env) (c response : List Nat)
    (hmc : make_challenge env.time env.randomSrc = some c)
    (hs : env.stdinRead = some response)
    (hcond : response.length = 129 ∧ response.getD 128 0 = 10)
    (hk : load_public_key env.keySrc = none) :
    runAuthenticate env =
      (AuthStatus.fatal,
       [Ev.outMsg Msg.standby, Ev.sleepSec 1, Ev.outMsg Msg.newline,
        Ev.openRandom, Ev.outMsg Msg.challengeLabel,
        Ev.outChallenge (challengeMessage c), Ev.readStdin,
        Ev.decodeResponse (unhexpcpy (response.take 128)), Ev.openKey]) := by
  unfold runAuthenticate
  rw [hmc, hs]
  simp only []
  rw [if_pos hcond, hk]
  rfl

/-- Evaluation of `authenticate` when the signature verifies. -/
theorem runAuth_verified (env : Env) (c response key : List Nat)
    (hmc : make_challenge env.time env.randomSrc = some c)
    (hs : env.stdinRead = some response)
    (hcond : response.length = 129 ∧ response.getD 128 0 = 10)
    (hk : load_public_key env.keySrc = some key)
    (hv : env.verify_ok (challengeMessage c) key
        (unhexpcpy (response.take 128)) = true) :
    runAuthenticate env =
      (AuthStatus.granted,
       [Ev.outMsg Msg.standby, Ev.sleepSec 1, Ev.outMsg Msg.newline,
        Ev.openRandom, Ev.outMsg Msg.challengeLabel,
        Ev.outChallenge (challengeMessage c), Ev.readStdin,
        Ev.decodeResponse (unhexpcpy (response.take 128)), Ev.openKey,
        Ev.verifyCall (challengeMessage c) key (unhexpcpy (response.take 128)),
        Ev.outMsg Msg.accessGranted]) := by
  unfold runAuthenticate
  rw [hmc, hs]
  simp only []
  rw [if_pos hcond, hk]
  simp only []
  rw [if_pos hv]
  rfl

/-- Evaluation of `authenticate` when the signature is rejected. -/
theorem runAuth_rejected (env : Env) (c response key : List Nat)
    (hmc : make_challenge env.time env.randomSrc = some c)
    (hs : env.stdinRead = some response)
    (hcond : response.length = 129 ∧ response.getD 128 0 = 10)
    (hk : load_public_key env.keySrc = some key)
    (hv : env.verify_ok (challengeMessage c) key
        (unhexpcpy (response.take 128)) = false) :
    runAuthenticate env =
      (AuthStatus.denied,
       [Ev.outMsg Msg.standby, Ev.sleepSec 1, Ev.outMsg Msg.newline,
        Ev.openRandom, Ev.outMsg Msg.challengeLabel,
        Ev.outChallenge (challengeMessage c), Ev.readStdin,
        Ev.decodeResponse (unhexpcpy (response.take 128)), Ev.openKey,
        Ev.verifyCall (challengeMessage c) key (unhexpcpy (response.take 128)),
        Ev.outMsg Msg.accessDenied]) := by
  unfold runAuthenticate
  rw [hmc, hs]
  simp only []
  rw [if_pos hcond, hk]
  simp only []
  rw [if_neg (by simp [hv])]
  rfl

/-- Claim C1: every message passed to the verification primitive during a
run is the exact 65-byte challenge message — the 64 lowercase hex
characters of the session's 32-byte challenge followed by a line feed —
and that very byte sequence was printed as the session's challenge line. -/
theorem verify_exact_message (env : Env) (m k s : List Nat)
    (h : Ev.verifyCall m k s ∈ (runMain env).2) :
    m.length = 65 ∧ Ev.outChallenge m ∈ (runMain env).2 ∧
    ∃ c, c.length = 32 ∧ m = challengeMessage c := by
  by_cases h1 : env.argc > 1
  · rw [args_fatal env h1] at h; simp at h
  by_cases h2 : env.euid = 0
  · by_cases h3 : env.uid = 0
    · rw [runMain_root env h1 h2 h3] at h
      obtain ⟨tail, htail, hall⟩ := privTransition_snd env []
      rw [htail] at h
      exact absurd (hall _ (by simpa using h)) (by simp)
    · rw [runMain_auth env h1 h2 h3] at h ⊢
      cases hmc : make_challenge env.time env.randomSrc with
      | none => rw [runAuth_none env hmc] at h; simp at h
      | some c =>
        have hclen : c.length = 32 := make_challenge_length _ _ _ hmc
        have hmlen : (challengeMessage c).length = 65 := by
          simp [challengeMessage, hexpcpy_lower_length, hclen]
        cases hs : env.stdinRead with
        | none => rw [runAuth_stdin_none env c hmc hs] at h; simp at h
        | some response =>
          by_cases hcond : response.length = 129 ∧ response.getD 128 0 = 10
          · cases hk : load_public_key env.keySrc with
            | none =>
                rw [runAuth_keyfail env c response hmc hs hcond hk] at h
                simp at h
            | some key =>
                cases hv : env.verify_ok (challengeMessage c) key
                    (unhexpcpy (response.take 128)) with
                | true =>
                    rw [runAuth_verified env c response key hmc hs hcond hk hv]
                      at h ⊢
                    have h' : Ev.verifyCall m k s ∈
                        (runPrivTransition env
                          [Ev.outMsg Msg.standby, Ev.sleepSec 1,
                           Ev.outMsg Msg.newline, Ev.openRandom,
                           Ev.outMsg Msg.challengeLabel,
                           Ev.outChallenge (challengeMessage c), Ev.readStdin,
                           Ev.decodeResponse (unhexpcpy (response.take 128)),
                           Ev.openKey,
                           Ev.verifyCall (challengeMessage c) key
                             (unhexpcpy (response.take 128)),
                           Ev.outMsg Msg.accessGranted]).2 := h
                    obtain ⟨tail, htail, hall⟩ := privTransition_snd env
                      [Ev.outMsg Msg.standby, Ev.sleepSec 1,
                       Ev.outMsg Msg.newline, Ev.openRandom,
                       Ev.outMsg Msg.challengeLabel,
                       Ev.outChallenge (challengeMessage c), Ev.readStdin,
                       Ev.decodeResponse (unhexpcpy (response.take 128)),
                       Ev.openKey,
                       Ev.verifyCall (challengeMessage c) key
                         (unhexpcpy (response.take 128)),
                       Ev.outMsg Msg.accessGranted]
                    rw [htail] at h'
                    rcases List.mem_append.1 h' with hin | hin
                    · simp at hin
                      obtain ⟨hm, -, -⟩ := hin
                      subst hm
                      refine ⟨hmlen, ?_, ⟨c, hclen, rfl⟩⟩
                      show Ev.outChallenge (challengeMessage c) ∈
                        (runPrivTransition env
                          [Ev.outMsg Msg.standby, Ev.sleepSec 1,
                           Ev.outMsg Msg.newline, Ev.openRandom,
                           Ev.outMsg Msg.challengeLabel,
                           Ev.outChallenge (challengeMessage c), Ev.readStdin,
                           Ev.decodeResponse (unhexpcpy (response.take 128)),
                           Ev.openKey,
                           Ev.verifyCall (challengeMessage c) key
                             (unhexpcpy (response.take 128)),
                           Ev.outMsg Msg.accessGranted]).2
                      rw [htail]
                      exact List.mem_append_left _ (by simp)
                    · exact absurd (hall _ hin) (by simp)
                | false =>
                    rw [runAuth_rejected env c response key hmc hs hcond hk hv]
                      at h ⊢
                    simp at h ⊢
                    obtain ⟨hm, -, -⟩ := h
                    subst hm
                    exact ⟨hmlen, by simp, ⟨c, hclen, rfl⟩⟩
          · rw [runAuth_badframe env c response hmc hs hcond] at h
            simp at h
  · rw [runMain_not_setuid env h1 h2] at h; simp at h

/-- Witness for C1 at a concrete granted session: the verified message is
the 65-byte line of 64 `0` characters plus a line feed, which is the
printed challenge message of the all-zero challenge. -/
theorem verify_exact_message_witness :
    (List.replicate 64 48 ++ [10] : List Nat).length = 65 ∧
    Ev.outChallenge (List.replicate 64 48 ++ [10]) ∈ (runMain goodEnv).2 ∧
    ∃ c, c.length = 32 ∧
      (List.replicate 64 48 ++ [10] : List Nat) = challengeMessage c :=
  verify_exact_message goodEnv (List.replicate 64 48 ++ [10])
    (List.replicate 32 0) (List.replicate 64 0)
    (by set_option maxRecDepth 40000 in decide)

/-- Claim C6: the exit status is exactly 125 for every environment/fatal
I/O or identity-change error (bad arguments, non-root effective uid, fatal
failure inside authentication, setgid/setuid failure), 1 when
authentication is denied, 126 when the shell exec fails for a reason other
than a missing path, 127 when the shell path does not exist; and on
success the process never returns — the outcome is the replaced process
image, reached exactly when the run gets to a successful exec. -/
theorem exit_codes (env : Env) :
    ((runMain env).1 = MainOutcome.execed ↔
       execReached env ∧ env.execResult = ExecResult.success) ∧
    ((runMain env).1 = MainOutcome.exited 127 ↔
       execReached env ∧ env.execResult = ExecResult.failNoEnt) ∧
    ((runMain env).1 = MainOutcome.exited 126 ↔
       execReached env ∧ env.execResult = ExecResult.failOther) ∧
    ((runMain env).1 = MainOutcome.exited 1 ↔
       preOk env ∧ env.uid ≠ 0 ∧ authStatus env = AuthStatus.denied) ∧
    ((runMain env).1 = MainOutcome.exited 125 ↔
       (¬ preOk env ∨ (env.uid ≠ 0 ∧ authStatus env = AuthStatus.fatal) ∨
        (privReached env ∧
          (env.setgid0_ok = false ∨ env.setuid0_ok = false)))) := by
  by_cases h1 : env.argc > 1
  · rw [args_fatal env h1]
    simp [preOk, privReached, execReached, h1]
  by_cases h2 : env.euid = 0
  · by_cases h3 : env.uid = 0
    · rw [runMain_root env h1 h2 h3]
      cases hg : env.setgid0_ok <;> cases hu : env.setuid0_ok <;>
        cases he : env.execResult <;>
          simp [runPrivTransition, hg, hu, he, preOk, privReached,
            execReached, h1, h2, h3]
    · rw [runMain_auth env h1 h2 h3]
      cases hst : (runAuthenticate env).1 with
      | fatal =>
          simp [preOk, privReached, execReached, authStatus, hst, h1, h2, h3]
      | denied =>
          simp [preOk, privReached, execReached, authStatus, hst, h1, h2, h3]
      | granted =>
          cases hg : env.setgid0_ok <;> cases hu : env.setuid0_ok <;>
            cases he : env.execResult <;>
              simp [runPrivTransition, hg, hu, he, preOk, privReached,
                execReached, authStatus, hst, h1, h2, h3]
  · rw [runMain_not_setuid env h1 h2]
    simp [preOk, privReached, execReached, h1, h2]

/-- Witness for C6 at a concrete environment: a root caller with working
identity changes and a successful exec never returns. -/
theorem exit_codes_witness :
    (runMain rootEnv).1 = MainOutcome.execed :=
  (exit_codes rootEnv).1.mpr (by decide)

/-- Witness for C10 at a concrete root-caller environment. -/
theorem root_bypass_witness :
    runMain rootEnv =
      (MainOutcome.execed,
       [Ev.setgidCall 0, Ev.setuidCall 0, Ev.execShell]) :=
  (root_bypass rootEnv (by decide) (by decide) (by decide)).2.2
    (by decide) (by decide) (by decide)

end Su
